import Mathlib

/-!
Verification of the Knowledge Resolution & Human-Escalation Engine
(backend/agent.py and backend/server.py) against its specification.

The Python code is shallowly embedded: Python dicts keyed by question/
document id become association lists, Firestore documents become records,
float confidence/success-rate values become rationals, exceptions become
explicit error results, and WebSocket broadcasts become event lists.
-/

/-- An association-list lookup, mirroring Python dict indexing / Firestore
document fetch by id: returns the value at the first matching key. -/
def lookupKey {α : Type} (l : List (String × α)) (k : String) : Option α :=
  match l with
  | [] => none
  | (k', v) :: rest => if k' == k then some v else lookupKey rest k

/-- Replace the value stored at key `k` (first occurrence), mirroring a
Python dict item assignment / Firestore overwrite of an existing doc. -/
def setKey {α : Type} (l : List (String × α)) (k : String) (v : α) :
    List (String × α) :=
  match l with
  | [] => []
  | (k', v') :: rest =>
      if k' == k then (k', v) :: rest else (k', v') :: setKey rest k v

/-- Python's `str.lower()` as applied to a query: case-fold every
character (Lean's `String.toLower` character map, written over the
character list so that it evaluates by kernel reduction). -/
def pyLower (s : String) : String := ⟨s.data.map Char.toLower⟩

/-- A predefined-tier entry as cached by
`SalonReceptionistAgent.load_knowledge_bases`: the agent stores
`\x7b"answer": ..., "confidence": 1.0, "verified": True\x7d` under the
lower-cased question. -/
structure PreEntry where
  answer : String
  confidence : ℚ
  verified : Bool
deriving DecidableEq, Repr

/-- A learned-tier entry as cached by the agent: answer, confidence,
verified flag, usage counters and the backing document id. -/
structure LearnedEntry where
  answer : String
  confidence : ℚ
  verified : Bool
  times_used : Nat
  success_rate : ℚ
  id : Option String
deriving DecidableEq, Repr

/-- `SalonReceptionistAgent.check_knowledge_base` (agent.py:173-208).
Lower-cases the query; returns the predefined answer on a predefined hit;
otherwise on a learned hit returns the answer when
`verified or (confidence > 0.8 and success_rate > 0.8)`, bumping that
entry's `times_used`; otherwise a miss (`None`). The best-effort PUT that
mirrors the usage bump to the backend is a logged-and-swallowed side
effect and is not part of the returned state. Returns the answer (if any)
and the updated learned cache. -/
def check_knowledge_base (pre : List (String × PreEntry))
    (learned : List (String × LearnedEntry)) (query : String) :
    Option String × List (String × LearnedEntry) :=
  let q := pyLower query
  match lookupKey pre q with
  | some entry => (some entry.answer, learned)
  | none =>
    match lookupKey learned q with
    | some entry =>
        if entry.verified || (decide (entry.confidence > mkRat 8 10) &&
            decide (entry.success_rate > mkRat 8 10)) then
          (some entry.answer,
           setKey learned q { entry with times_used := entry.times_used + 1 })
        else (none, learned)
    | none => (none, learned)

example :
    check_knowledge_base []
      [("q", ⟨"a", mkRat 9 10, false, 0, mkRat 9 10, none⟩)] "Q" =
      (some "a", [("q", ⟨"a", mkRat 9 10, false, 1, mkRat 9 10, none⟩)]) := by
  decide

example :
    check_knowledge_base []
      [("q", ⟨"a", mkRat 8 10, false, 0, 1, none⟩)] "q" =
      (none, [("q", ⟨"a", mkRat 8 10, false, 0, 1, none⟩)]) := by decide

example :
    check_knowledge_base [("q", ⟨"p", 1, true⟩)]
      [("q", ⟨"a", 0, false, 0, 0, none⟩)] "q" =
      (some "p", [("q", ⟨"a", 0, false, 0, 0, none⟩)]) := by decide

/-- The `HelpRequest` pydantic model (server.py:45-51). `caller_details`
is an opaque `Dict[str, Any]` payload, modelled as an opaque optional
string. Defaults: everything `None` except `status = "pending"`. -/
structure HelpRequest where
  id : Option String
  caller_details : Option String
  question : Option String
  context : Option String
  status : String
  supervisor_response : Option String
deriving DecidableEq, Repr

/-- A stored `help_requests` document: the `HelpRequest` fields as
written at creation, plus the `timestamp` field that
`update_help_request` merges in (`none` = field absent). -/
structure HelpDoc where
  id : Option String
  caller_details : Option String
  question : Option String
  context : Option String
  status : String
  supervisor_response : Option String
  timestamp : Option String
deriving DecidableEq, Repr

/-- The `KnowledgeBaseEntry` pydantic model (server.py:54-60), the
predefined tier's document shape. -/
structure KnowledgeBaseEntry where
  question : String
  answer : String
  confidence : ℚ
  last_updated : String
  source : String
  verified : Bool
deriving DecidableEq, Repr

/-- The `LearnedKnowledgeEntry` pydantic model (server.py:63-72), the
learned tier's document shape. -/
structure LearnedDoc where
  question : String
  answer : String
  confidence : ℚ
  last_updated : String
  verified : Bool
  source_request_id : String
  supervisor_id : Option String
  times_used : Nat
  success_rate : ℚ
deriving DecidableEq, Repr

/-- The Firestore collections the server reads and writes, each an
association list from document id to document. -/
structure Store where
  help_requests : List (String × HelpDoc)
  knowledge_base : List (String × KnowledgeBaseEntry)
  learned_knowledge : List (String × LearnedDoc)
deriving DecidableEq, Repr

/-- Python truthiness of an optional string (`if request.question:`):
`None` and the empty string are falsy. -/
def isTruthy : Option String → Bool
  | none => false
  | some s => !(s == "")

/-- `update_knowledge_base` (server.py:396-412). Builds
`LearnedKnowledgeEntry(question, answer, confidence=1.0,
source_request_id=request_id)` -- pydantic defaults supply
`verified=False`, `times_used=0`, `success_rate=1.0`,
`supervisor_id=None`, `last_updated=now` -- and writes it to a fresh
`learned_knowledge` document `newId` with no duplicate-question check.
A `None` question fails pydantic validation, and a durable-store failure
(`storeFail`) raises; either way the `except` clause re-raises an
HTTPException, modelled as `Except.error`. -/
def update_knowledge_base (question : Option String) (answer : String)
    (request_id : String) (newId now : String) (storeFail : Bool)
    (s : Store) : Except String Store :=
  match question with
  | none => .error "validation error"
  | some q =>
      if storeFail then .error "Failed to update learned knowledge base"
      else .ok { s with learned_knowledge := s.learned_knowledge ++
          [(newId, ⟨q, answer, 1, now, false, request_id, none, 0, 1⟩)] }

/-- HTTP outcome of a handler: success, 404, 422, or the 500 produced by
a blanket exception path. -/
inductive HttpOutcome where
  | ok
  | notFound
  | unprocessable
  | err
deriving DecidableEq, Repr

/-- `update_help_request` (server.py:235-283). Fetches the document
(404 when absent), then merges `\x7bstatus, supervisor_response,
timestamp\x7d` -- plus `question` when truthy -- into it with
`set(merge=True)`; there is no check of the current status. When the new
status is `"resolved"` and the response is truthy it then calls
`update_knowledge_base` with the *pre-update* document's question; an
exception there is caught by the handler's `except` and turned into a
500 response, after the document write has already happened. -/
def update_help_request (request_id : String) (request : HelpRequest)
    (newId now : String) (storeFail : Bool) (s : Store) :
    HttpOutcome × Store :=
  match lookupKey s.help_requests request_id with
  | none => (.notFound, s)
  | some current_doc =>
      let merged : HelpDoc :=
        { current_doc with
            status := request.status
            supervisor_response := request.supervisor_response
            timestamp := some now
            question := if isTruthy request.question then request.question
                        else current_doc.question }
      let s' : Store :=
        { s with help_requests := setKey s.help_requests request_id merged }
      if request.status == "resolved" && isTruthy request.supervisor_response
      then
        match update_knowledge_base current_doc.question
            (request.supervisor_response.getD "") request_id newId now
            storeFail s' with
        | .ok s'' => (.ok, s'')
        | .error _ => (.err, s')
      else (.ok, s')

/-- A `supervisor_response` event as serialized for broadcast. -/
structure Event where
  type : String
  request_id : String
  response : String
  question : Option String
deriving DecidableEq, Repr

/-- `handle_supervisor_response` (server.py:368-393). Reads the
request's current question, applies `update_help_request` with
`status="resolved"` (whose returned JSONResponse -- even a 500 -- is
ignored), then always broadcasts the `supervisor_response` event.
Returns the new store and the events handed to `manager.broadcast`. -/
def handle_supervisor_response (request_id response : String)
    (newId now : String) (storeFail : Bool) (s : Store) :
    Store × List Event :=
  let question := match lookupKey s.help_requests request_id with
    | some d => d.question
    | none => none
  let upd := update_help_request request_id
      ⟨none, none, question, none, "resolved", some response⟩
      newId now storeFail s
  (upd.2, [⟨"supervisor_response", request_id, response, question⟩])

/-- A registered WebSocket connection: its identity and whether its
`send_text` raises on this broadcast. -/
structure Conn where
  cid : Nat
  sendFails : Bool
deriving DecidableEq, Repr

/-- `ConnectionManager.broadcast` (server.py:96-98): iterates over
`active_connections` awaiting `send_text` on each. There is no
try/except and no removal: the first failing send raises out of the
loop. Returns the ids the message was delivered to, `some c` for the
connection id whose send raised (`none` when the loop completed), and
the `active_connections` list afterwards -- which the method never
mutates. -/
def broadcast : List Conn → List Nat × Option Nat × List Conn
  | [] => ([], none, [])
  | c :: rest =>
      if c.sendFails then ([], some c.cid, c :: rest)
      else
        let r := broadcast rest
        (c.cid :: r.1, r.2.1, c :: r.2.2)

/-- `ConnectionManager.disconnect` (server.py:93-94):
`self.active_connections.remove(websocket)`. Python `list.remove`
deletes the first occurrence and raises `ValueError` when the element is
absent; the raise is modelled as `none`. -/
def disconnect (ws : Nat) : List Nat → Option (List Nat)
  | [] => none
  | c :: rest =>
      if c == ws then some rest
      else (disconnect ws rest).map (c :: ·)

/-- The raw JSON dict accepted by POST /knowledge-base/learned/
(server.py:483-508): which keys are present, and their values. -/
structure LearnedPayload where
  question : Option String
  answer : Option String
  confidence : Option ℚ
  verified : Option Bool
  last_updated : Option String
  source_request_id : Option String
  supervisor_id : Option String
deriving DecidableEq, Repr

/-- `add_learned_knowledge` (server.py:483-508). Returns 422 when any of
`question`/`answer`/`confidence` is missing; otherwise builds the entry
with `.get` defaults (`times_used=0`, `success_rate=1.0`) and writes it
to a fresh document `newId`. No duplicate-question check of any kind. -/
def add_learned_knowledge (entry : LearnedPayload) (newId now : String)
    (s : Store) : HttpOutcome × Store :=
  match entry.question, entry.answer, entry.confidence with
  | some q, some a, some c =>
      let new_entry : LearnedDoc :=
        { question := q
          answer := a
          confidence := c
          verified := entry.verified.getD false
          last_updated := entry.last_updated.getD now
          times_used := 0
          success_rate := 1
          source_request_id := entry.source_request_id.getD ""
          supervisor_id := entry.supervisor_id }
      (.ok, { s with learned_knowledge :=
          s.learned_knowledge ++ [(newId, new_entry)] })
  | _, _, _ => (.unprocessable, s)

/-- `add_predefined_knowledge` (server.py:471-480). Forces
`source="predefined"` and `verified=True`, then writes the entry to a
fresh `knowledge_base` document `newId`. No duplicate-question check. -/
def add_predefined_knowledge (entry : KnowledgeBaseEntry) (newId : String)
    (s : Store) : HttpOutcome × Store :=
  let e := { entry with source := "predefined", verified := true }
  (.ok, { s with knowledge_base := s.knowledge_base ++ [(newId, e)] })

/-- `verify_livekit_signature` (server.py:104-121): requires the
`LiveKit-Signature` header and the configured secret, then compares the
header against base64(HMAC-SHA256(secret, body)) in constant time
(semantically: string equality). `mac` abstracts the
base64-encoded HMAC-SHA256 computation. -/
def verify_livekit_signature (mac : String → String → String)
    (api_secret : Option String) (signature : Option String)
    (body : String) : Bool :=
  match signature with
  | none => false
  | some sig =>
      match api_secret with
      | none => false
      | some secret => sig == mac secret body

/-- The `LiveKitWebhook` pydantic model (server.py:75-80); `room` and
`participant` payloads are opaque. -/
structure LiveKitWebhook where
  event : String
  room : String
  participant : Option String
deriving DecidableEq, Repr

/-- `livekit_webhook` (server.py:126-188). The whole handler body sits
in a `try` whose `except Exception` clause re-raises every exception --
including the `HTTPException(status_code=401)` raised on signature
failure -- as `HTTPException(status_code=500)`, so the client observes
500, never 401. `parse` abstracts `json.loads` plus pydantic validation
of the raw body. Returns the HTTP status code and the list of event
types handed to `manager.broadcast`. -/
def livekit_webhook (mac : String → String → String)
    (api_secret : Option String) (parse : String → Option LiveKitWebhook)
    (signature : Option String) (body : String) : Nat × List String :=
  if !verify_livekit_signature mac api_secret signature body then
    (500, [])
  else
    match parse body with
    | none => (500, [])
    | some webhook =>
        if webhook.event == "room.participant_joined" then
          match webhook.participant with
          | none => (500, [])
          | some _ => (200, ["participant_joined"])
        else if webhook.event == "room.participant_left" then
          match webhook.participant with
          | none => (500, [])
          | some _ => (200, ["participant_left"])
        else (200, [])

/-- A store holding one already-resolved help request (response "A")
together with the learned entry its first resolution inserted. -/
def resolvedStore : Store :=
  { help_requests := [("r1", ⟨some "r1", some "caller", some "hours?",
      some "ctx", "resolved", some "A", some "t1"⟩)],
    knowledge_base := [],
    learned_knowledge :=
      [("k1", ⟨"hours?", "A", 1, "t1", false, "r1", none, 0, 1⟩)] }

/-- A store holding one pending help request and empty knowledge
tiers. -/
def pendingStore : Store :=
  { help_requests := [("r1", ⟨some "r1", some "caller", some "hours?",
      some "ctx", "pending", none, none⟩)],
    knowledge_base := [],
    learned_knowledge := [] }

/-- A store whose learned tier already holds an entry for the question
"hours?". -/
def learnedDupStore : Store :=
  { help_requests := [],
    knowledge_base := [],
    learned_knowledge :=
      [("k1", ⟨"hours?", "A", 1, "t1", false, "r1", none, 0, 1⟩)] }

/-- Overwriting the value at a present key is observed by a subsequent
lookup of that key. -/
theorem lookupKey_setKey {α : Type} (l : List (String × α)) (k : String)
    (v w : α) (h : lookupKey l k = some w) :
    lookupKey (setKey l k v) k = some v := by
  induction l with
  | nil => simp [lookupKey] at h
  | cons p rest ih =>
      by_cases hk : p.1 == k
      · simp [lookupKey, setKey, hk]
      · simp only [lookupKey, setKey, hk] at h ⊢
        simp only [Bool.false_eq_true, if_false] at h ⊢
        exact ih h

/-- `update_knowledge_base` only ever appends to the learned tier: a
successful run leaves `help_requests` untouched. -/
theorem update_knowledge_base_help_requests (question : Option String)
    (answer rid newId now : String) (storeFail : Bool) (s s' : Store)
    (h : update_knowledge_base question answer rid newId now storeFail s =
      .ok s') : s'.help_requests = s.help_requests := by
  cases question with
  | none => simp [update_knowledge_base] at h
  | some q =>
      cases storeFail with
      | true => simp [update_knowledge_base] at h
      | false =>
          simp only [update_knowledge_base, if_false, Except.ok.injEq,
            Bool.false_eq_true] at h
          rw [← h]

/-- The help-request document after any `update_help_request` on a
present id: the stored document merged with the status, response and
timestamp, plus the question when the request carries a truthy one --
whether or not the learned-knowledge step runs or fails. -/
theorem update_help_request_doc_after (s : Store) (rid newId now : String)
    (req : HelpRequest) (doc : HelpDoc) (storeFail : Bool)
    (hdoc : lookupKey s.help_requests rid = some doc) :
    (update_help_request rid req newId now storeFail s).2.help_requests =
      setKey s.help_requests rid
        { doc with status := req.status,
                   supervisor_response := req.supervisor_response,
                   timestamp := some now,
                   question := if isTruthy req.question then req.question
                               else doc.question } := by
  simp only [update_help_request, hdoc]
  split
  · split
    · next s'' h =>
        exact update_knowledge_base_help_requests _ _ _ _ _ _ _ _ h
    · rfl
  · rfl

/-- The resolved path of `update_help_request`: when the request id is
present with question `q` and the new status is `"resolved"` with a
truthy response, the document is overwritten with the resolved fields
and a fresh learned entry carrying the pydantic defaults is appended. -/
theorem update_help_request_resolved_eq (s : Store)
    (rid resp newId now : String) (doc : HelpDoc) (q : String)
    (hdoc : lookupKey s.help_requests rid = some doc)
    (hq : doc.question = some q) (hresp : resp ≠ "") :
    update_help_request rid
        ⟨none, none, doc.question, none, "resolved", some resp⟩
        newId now false s =
      (.ok, { s with
          help_requests := setKey s.help_requests rid
            { doc with status := "resolved",
                       supervisor_response := some resp,
                       timestamp := some now },
          learned_knowledge := s.learned_knowledge ++
            [(newId, ⟨q, resp, 1, now, false, rid, none, 0, 1⟩)] }) := by
  have hr : (resp == "") = false := by
    simpa using hresp
  simp [update_help_request, hdoc, hq, update_knowledge_base, isTruthy, hr,
    ite_self]

/-- Claim C1: for a learned-tier entry whose normalized question is not
shadowed by the predefined tier, `check_knowledge_base` returns its
answer iff `verified` is true or both `confidence > 0.8` and
`success_rate > 0.8` hold with strict inequality; in particular an
unverified entry sitting exactly at 0.8 is a miss. -/
theorem C1_learned_tier_gate (pre : List (String × PreEntry))
    (learned : List (String × LearnedEntry)) (query : String)
    (e : LearnedEntry)
    (hpre : lookupKey pre (pyLower query) = none)
    (hl : lookupKey learned (pyLower query) = some e) :
    (check_knowledge_base pre learned query).1 = some e.answer ↔
      (e.verified = true ∨
        (e.confidence > mkRat 8 10 ∧ e.success_rate > mkRat 8 10)) := by
  simp only [check_knowledge_base, hpre, hl]
  cases hv : e.verified <;>
    by_cases h1 : e.confidence > mkRat 8 10 <;>
    by_cases h2 : e.success_rate > mkRat 8 10 <;>
    simp [hv, h1, h2]

/-- Witness for C1: an unverified learned entry at confidence 0.9 and
success rate 0.9 (with no predefined entry) is returned, case folding
the query. -/
theorem C1_learned_tier_gate_witness :
    lookupKey ([] : List (String × PreEntry)) (pyLower "Q") = none ∧
    lookupKey [("q", (⟨"a", mkRat 9 10, false, 0, mkRat 9 10, none⟩ :
        LearnedEntry))] (pyLower "Q") =
      some ⟨"a", mkRat 9 10, false, 0, mkRat 9 10, none⟩ ∧
    (check_knowledge_base []
        [("q", ⟨"a", mkRat 9 10, false, 0, mkRat 9 10, none⟩)] "Q").1 =
      some "a" :=
  ⟨by decide, by decide,
    (C1_learned_tier_gate [] [("q", ⟨"a", mkRat 9 10, false, 0, mkRat 9 10,
        none⟩)] "Q" ⟨"a", mkRat 9 10, false, 0, mkRat 9 10, none⟩
      (by decide) (by decide)).mpr (Or.inr ⟨by decide, by decide⟩)⟩

/-- Claim C4: a predefined hit for the normalized question is returned
unconditionally, whatever the learned tier holds for that question. -/
theorem C4_predefined_precedence (pre : List (String × PreEntry))
    (learned : List (String × LearnedEntry)) (query : String) (p : PreEntry)
    (hpre : lookupKey pre (pyLower query) = some p) :
    (check_knowledge_base pre learned query).1 = some p.answer := by
  simp [check_knowledge_base, hpre]

/-- Witness for C4: the predefined answer wins over an unverified,
zero-confidence learned entry for the same question. -/
theorem C4_predefined_precedence_witness :
    lookupKey [("q", (⟨"p", 1, true⟩ : PreEntry))] (pyLower "Q") =
      some ⟨"p", 1, true⟩ ∧
    (check_knowledge_base [("q", ⟨"p", 1, true⟩)]
        [("q", ⟨"a", 0, false, 0, 0, none⟩)] "Q").1 = some "p" :=
  ⟨by decide,
    C4_predefined_precedence [("q", ⟨"p", 1, true⟩)]
      [("q", ⟨"a", 0, false, 0, 0, none⟩)] "Q" ⟨"p", 1, true⟩ (by decide)⟩

/-- Claim C2 counterexample: resolving an id whose stored status is
already `"resolved"` does not fail with any AlreadyResolved error --
`update_help_request` never inspects the current status. The second call
returns 200, overwrites the stored `supervisor_response` ("A" becomes
"B"), and inserts a second learned entry. -/
theorem C2_counterexample :
    update_help_request "r1"
        ⟨none, none, some "hours?", none, "resolved", some "B"⟩
        "k2" "t2" false resolvedStore =
      (.ok,
        { help_requests := [("r1", ⟨some "r1", some "caller", some "hours?",
            some "ctx", "resolved", some "B", some "t2"⟩)],
          knowledge_base := [],
          learned_knowledge :=
            [("k1", ⟨"hours?", "A", 1, "t1", false, "r1", none, 0, 1⟩),
             ("k2", ⟨"hours?", "B", 1, "t2", false, "r1", none, 0, 1⟩)] }) :=
  by decide

/-- Claim C2 amended: there is no idempotency guard. Resolving a request
succeeds whatever its current status -- in particular a second Resolve
on an already-resolved id succeeds again, overwrites the stored
`supervisor_response` with the new value, and appends one more learned
entry. -/
theorem C2_no_already_resolved_guard (s : Store)
    (rid resp newId now : String) (doc : HelpDoc) (q : String)
    (hdoc : lookupKey s.help_requests rid = some doc)
    (hq : doc.question = some q) (hresp : resp ≠ "") :
    update_help_request rid
        ⟨none, none, doc.question, none, "resolved", some resp⟩
        newId now false s =
      (.ok, { s with
          help_requests := setKey s.help_requests rid
            { doc with status := "resolved",
                       supervisor_response := some resp,
                       timestamp := some now },
          learned_knowledge := s.learned_knowledge ++
            [(newId, ⟨q, resp, 1, now, false, rid, none, 0, 1⟩)] }) :=
  update_help_request_resolved_eq s rid resp newId now doc q hdoc hq hresp

/-- Witness for the amended C2: the second resolution of the concrete
already-resolved store succeeds and rewrites it. -/
theorem C2_no_already_resolved_guard_witness :
    lookupKey resolvedStore.help_requests "r1" =
      some ⟨some "r1", some "caller", some "hours?", some "ctx",
            "resolved", some "A", some "t1"⟩ ∧
    update_help_request "r1"
        ⟨none, none, some "hours?", none, "resolved", some "B"⟩
        "k2" "t2" false resolvedStore =
      (.ok, { resolvedStore with
          help_requests := setKey resolvedStore.help_requests "r1"
            ⟨some "r1", some "caller", some "hours?", some "ctx",
             "resolved", some "B", some "t2"⟩,
          learned_knowledge := resolvedStore.learned_knowledge ++
            [("k2", ⟨"hours?", "B", 1, "t2", false, "r1", none, 0, 1⟩)] }) :=
  ⟨by decide,
    C2_no_already_resolved_guard resolvedStore "r1" "B" "k2" "t2"
      ⟨some "r1", some "caller", some "hours?", some "ctx", "resolved",
        some "A", some "t1"⟩ "hours?" (by decide) (by decide) (by decide)⟩

/-- Claim C5: a successful resolution through the supervisor-response
path appends exactly one learned entry for the request's question, with
confidence = 1.0, verified = false, times_used = 0, success_rate = 1.0
and source_request_id = the request id (pydantic defaults of
`LearnedKnowledgeEntry` plus the explicit arguments of
`update_knowledge_base`). -/
theorem C5_learned_entry_fields (s : Store) (rid resp newId now : String)
    (doc : HelpDoc) (q : String)
    (hdoc : lookupKey s.help_requests rid = some doc)
    (hq : doc.question = some q) (hresp : resp ≠ "") :
    Store.learned_knowledge
        (handle_supervisor_response rid resp newId now false s).1 =
      s.learned_knowledge ++
        [(newId, { question := q, answer := resp, confidence := 1,
                   last_updated := now, verified := false,
                   source_request_id := rid, supervisor_id := none,
                   times_used := 0, success_rate := 1 })] := by
  simp only [handle_supervisor_response, hdoc]
  rw [update_help_request_resolved_eq s rid resp newId now doc q hdoc hq
    hresp]

/-- Witness for C5: resolving a concrete pending request appends the
learned entry with exactly the claimed field values. -/
theorem C5_learned_entry_fields_witness :
    lookupKey pendingStore.help_requests "r1" =
      some ⟨some "r1", some "caller", some "hours?", some "ctx",
            "pending", none, none⟩ ∧
    (handle_supervisor_response "r1" "9am-6pm" "k1" "t1" false
        pendingStore).1.learned_knowledge =
      [("k1", ⟨"hours?", "9am-6pm", 1, "t1", false, "r1", none, 0, 1⟩)] :=
  ⟨by decide,
    C5_learned_entry_fields pendingStore "r1" "9am-6pm" "k1" "t1"
      ⟨some "r1", some "caller", some "hours?", some "ctx", "pending",
        none, none⟩ "hours?" (by decide) (by decide) (by decide)⟩

/-- Claim C6: a failure of the learned-knowledge insertion (any
`storeFail`, or a request whose stored question is `None`) does not
abort the resolution: the document write precedes the insertion, so the
request is still stored as resolved with the supervisor response, and
`handle_supervisor_response` ignores `update_help_request`'s returned
response and broadcasts the `supervisor_response` event regardless. -/
theorem C6_resolution_survives_insert_failure (s : Store)
    (rid resp newId now : String) (doc : HelpDoc) (storeFail : Bool)
    (hdoc : lookupKey s.help_requests rid = some doc)
    (hresp : resp ≠ "") :
    lookupKey
        ((handle_supervisor_response rid resp newId now storeFail s).1
          ).help_requests rid =
      some { doc with status := "resolved",
                      supervisor_response := some resp,
                      timestamp := some now } ∧
    (handle_supervisor_response rid resp newId now storeFail s).2 =
      [⟨"supervisor_response", rid, resp, doc.question⟩] := by
  have hr : (resp == "") = false := by simpa using hresp
  constructor
  · simp only [handle_supervisor_response, hdoc]
    rw [update_help_request_doc_after s rid newId now
      ⟨none, none, doc.question, none, "resolved", some resp⟩ doc storeFail
      hdoc]
    rw [lookupKey_setKey s.help_requests rid _ doc hdoc]
    simp [ite_self]
  · simp only [handle_supervisor_response, hdoc]

/-- Witness for C6: with the insertion failing, the concrete pending
request is still resolved with the response stored, and the event is
still broadcast. -/
theorem C6_resolution_survives_insert_failure_witness :
    lookupKey pendingStore.help_requests "r1" =
      some ⟨some "r1", some "caller", some "hours?", some "ctx",
            "pending", none, none⟩ ∧
    lookupKey
        ((handle_supervisor_response "r1" "9am-6pm" "k1" "t1" true
          pendingStore).1).help_requests "r1" =
      some ⟨some "r1", some "caller", some "hours?", some "ctx",
            "resolved", some "9am-6pm", some "t1"⟩ ∧
    (handle_supervisor_response "r1" "9am-6pm" "k1" "t1" true
        pendingStore).2 =
      [⟨"supervisor_response", "r1", "9am-6pm", some "hours?"⟩] :=
  ⟨by decide,
    (C6_resolution_survives_insert_failure pendingStore "r1" "9am-6pm"
      "k1" "t1" ⟨some "r1", some "caller", some "hours?", some "ctx",
        "pending", none, none⟩ true (by decide) (by decide)).1,
    (C6_resolution_survives_insert_failure pendingStore "r1" "9am-6pm"
      "k1" "t1" ⟨some "r1", some "caller", some "hours?", some "ctx",
        "pending", none, none⟩ true (by decide) (by decide)).2⟩

/-- Claim C10: `update_help_request` writes with merge semantics: only
status, supervisor_response, timestamp -- and question, exactly when the
supplied one is truthy -- are written; the stored id, caller_details and
context are unchanged, whatever the learned-knowledge step does. -/
theorem C10_merge_semantics_frame (s : Store) (rid newId now : String)
    (req : HelpRequest) (doc : HelpDoc) (storeFail : Bool)
    (hdoc : lookupKey s.help_requests rid = some doc) :
    ∃ doc',
      lookupKey
          (update_help_request rid req newId now storeFail s).2.help_requests
          rid = some doc' ∧
      doc'.id = doc.id ∧
      doc'.caller_details = doc.caller_details ∧
      doc'.context = doc.context ∧
      doc'.status = req.status ∧
      doc'.supervisor_response = req.supervisor_response ∧
      doc'.timestamp = some now ∧
      (isTruthy req.question = false → doc'.question = doc.question) ∧
      (isTruthy req.question = true → doc'.question = req.question) := by
  rw [update_help_request_doc_after s rid newId now req doc storeFail hdoc]
  exact ⟨_, lookupKey_setKey s.help_requests rid _ doc hdoc, rfl, rfl, rfl,
    rfl, rfl, rfl, fun h => by simp [h], fun h => by simp [h]⟩

/-- Witness for C10: updating the concrete pending request with no
question supplied keeps id, caller_details, context and question. -/
theorem C10_merge_semantics_frame_witness :
    lookupKey pendingStore.help_requests "r1" =
      some ⟨some "r1", some "caller", some "hours?", some "ctx",
            "pending", none, none⟩ ∧
    ∃ doc',
      lookupKey
          (update_help_request "r1"
            ⟨none, none, none, none, "resolved", some "9am"⟩
            "k1" "t1" false pendingStore).2.help_requests "r1" =
        some doc' ∧
      doc'.id = some "r1" ∧
      doc'.caller_details = some "caller" ∧
      doc'.context = some "ctx" ∧
      doc'.status = "resolved" ∧
      doc'.supervisor_response = some "9am" ∧
      doc'.timestamp = some "t1" ∧
      doc'.question = some "hours?" := by
  refine ⟨by decide, ?_⟩
  obtain ⟨doc', h1, h2, h3, h4, h5, h6, h7, h8, _⟩ :=
    C10_merge_semantics_frame pendingStore "r1" "k1" "t1"
      ⟨none, none, none, none, "resolved", some "9am"⟩
      ⟨some "r1", some "caller", some "hours?", some "ctx", "pending",
        none, none⟩ false (by decide)
  exact ⟨doc', h1, h2, h3, h4, h5, h6, h7, h8 (by decide)⟩

/-- Claim C3 counterexample: with three registered connections where the
second one's send fails, only the first one receives the event -- the
third of the N connections gets nothing -- and the failing connection is
still registered afterwards: the loop has no try/except and never
unregisters anything. -/
theorem C3_counterexample :
    broadcast [⟨0, false⟩, ⟨1, true⟩, ⟨2, false⟩] =
      ([0], some 1, [⟨0, false⟩, ⟨1, true⟩, ⟨2, false⟩]) := by decide

/-- Claim C3 amended: a failing send aborts the fan-out. With the
registry pre ++ c :: post where every send in pre succeeds and c's send
fails, exactly the connections in pre receive the event, the exception
escapes carrying c's failure, and the registry is unchanged -- in
particular the failing connection is not removed and the connections
after it receive nothing. -/
theorem C3_broadcast_aborts_at_failure (pre post : List Conn) (c : Conn)
    (hpre : ∀ d ∈ pre, d.sendFails = false) (hc : c.sendFails = true) :
    broadcast (pre ++ c :: post) =
      (pre.map Conn.cid, some c.cid, pre ++ c :: post) := by
  induction pre with
  | nil => simp [broadcast, hc]
  | cons d rest ih =>
      have hd : d.sendFails = false := hpre d (List.mem_cons_self d rest)
      have hrest : ∀ e ∈ rest, e.sendFails = false :=
        fun e he => hpre e (List.mem_cons_of_mem d he)
      simp [broadcast, hd, ih hrest]

/-- Witness for the amended C3: concrete three-connection registry with
the middle send failing. -/
theorem C3_broadcast_aborts_at_failure_witness :
    broadcast [⟨10, false⟩, ⟨11, true⟩, ⟨12, false⟩] =
      ([10], some 11, [⟨10, false⟩, ⟨11, true⟩, ⟨12, false⟩]) :=
  C3_broadcast_aborts_at_failure [⟨10, false⟩] [⟨12, false⟩] ⟨11, true⟩
    (by decide) (by decide)

/-- Claim C7 counterexample: inserting a learned entry whose question
"hours?" already exists in the learned tier does not fail with any
DuplicateKey error: it succeeds and persists a second entry with the
same question, so the normalized question is not unique in the tier. -/
theorem C7_counterexample :
    add_learned_knowledge
        ⟨some "hours?", some "B", some 1, none, none, none, none⟩
        "k2" "t2" learnedDupStore =
      (.ok, { learnedDupStore with learned_knowledge :=
          [("k1", ⟨"hours?", "A", 1, "t1", false, "r1", none, 0, 1⟩),
           ("k2", ⟨"hours?", "B", 1, "t2", false, "", none, 0, 1⟩)] }) := by
  decide

/-- Claim C7 amended: neither insert endpoint checks question
uniqueness. With the three required fields present,
`add_learned_knowledge` always succeeds and appends a fresh document --
whatever questions the tier already holds -- and
`add_predefined_knowledge` likewise always appends to the predefined
tier. -/
theorem C7_insert_never_checks_duplicates (s : Store) (p : LearnedPayload)
    (newId now : String) (q a : String) (c : ℚ)
    (hq : p.question = some q) (ha : p.answer = some a)
    (hc : p.confidence = some c) :
    add_learned_knowledge p newId now s =
      (.ok, { s with learned_knowledge := s.learned_knowledge ++
          [(newId, ⟨q, a, c, p.last_updated.getD now, p.verified.getD false,
                    p.source_request_id.getD "", p.supervisor_id, 0,
                    1⟩)] }) ∧
    ∀ (e : KnowledgeBaseEntry) (nid : String),
      add_predefined_knowledge e nid s =
        (.ok, { s with knowledge_base := s.knowledge_base ++
            [(nid, { e with source := "predefined",
                            verified := true })] }) := by
  constructor
  · simp [add_learned_knowledge, hq, ha, hc]
  · intro e nid
    rfl

/-- Witness for the amended C7: the duplicate insert of "hours?"
succeeds and leaves two entries with that question in the tier. -/
theorem C7_insert_never_checks_duplicates_witness :
    (add_learned_knowledge
        ⟨some "hours?", some "B", some 1, none, none, none, none⟩
        "k9" "t9" learnedDupStore).2.learned_knowledge =
      [("k1", ⟨"hours?", "A", 1, "t1", false, "r1", none, 0, 1⟩),
       ("k9", ⟨"hours?", "B", 1, "t9", false, "", none, 0, 1⟩)] := by
  rw [(C7_insert_never_checks_duplicates learnedDupStore
      ⟨some "hours?", some "B", some 1, none, none, none, none⟩ "k9" "t9"
      "hours?" "B" 1 rfl rfl rfl).1]
  rfl

/-- Claim C9 counterexample: unregistering a connection that is not in
`active_connections` is not a no-op: Python `list.remove` raises
ValueError (modelled as `none`), rather than returning the list
unchanged. -/
theorem C9_counterexample :
    disconnect 5 [1, 2] = none ∧ disconnect 5 [1, 2] ≠ some [1, 2] := by
  decide

/-- Claim C9 amended: `disconnect` removes exactly the first occurrence
of the connection when it is present, and raises ValueError -- not a
no-op -- when it is absent. -/
theorem C9_remove_first_or_raise (ws : Nat) (l : List Nat) :
    (ws ∉ l → disconnect ws l = none) ∧
    (ws ∈ l → disconnect ws l = some (l.erase ws)) := by
  induction l with
  | nil => simp [disconnect]
  | cons c rest ih =>
      by_cases hceq : c = ws
      · subst hceq
        constructor
        · intro h
          exact absurd (List.mem_cons_self c rest) h
        · intro _
          simp [disconnect, List.erase_cons_head]
      · have hbeq : (c == ws) = false := by simpa using hceq
        constructor
        · intro h
          have hnr : ws ∉ rest := fun hm => h (List.mem_cons_of_mem c hm)
          simp [disconnect, hbeq, ih.1 hnr]
        · intro h
          have hm : ws ∈ rest := by
            rcases List.mem_cons.mp h with h1 | h1
            · exact absurd h1.symm hceq
            · exact h1
          simp [disconnect, hbeq, ih.2 hm, List.erase_cons, hceq]

/-- Witness for the amended C9: removing an absent connection raises;
removing a present one deletes its first occurrence only. -/
theorem C9_remove_first_or_raise_witness :
    disconnect 7 [1, 2] = none ∧ disconnect 1 [1, 2, 1] = some [2, 1] :=
  ⟨(C9_remove_first_or_raise 7 [1, 2]).1 (by decide),
   ((C9_remove_first_or_raise 1 [1, 2, 1]).2 (by decide)).trans (by decide)⟩

/-- Claim C8 (code bug): a webhook with a missing or non-matching
signature is rejected before any event processing and no broadcast is
issued -- but the client-visible status is 500, not the 401 the code
itself raises: the `HTTPException(status_code=401)` at server.py:140 is
caught by the handler's own blanket `except Exception` (server.py:186)
and re-raised as a 500. A correctly signed body is processed and
broadcast, showing the rejection is due to the signature alone. -/
theorem C8_invalid_signature_rejected_as_500 :
    livekit_webhook (fun secret body => secret ++ "|" ++ body) (some "sec")
        (fun _ => some ⟨"room.participant_joined", "room1", some "p"⟩)
        (some "tampered") "body" = (500, []) ∧
    livekit_webhook (fun secret body => secret ++ "|" ++ body) (some "sec")
        (fun _ => some ⟨"room.participant_joined", "room1", some "p"⟩)
        none "body" = (500, []) ∧
    livekit_webhook (fun secret body => secret ++ "|" ++ body) (some "sec")
        (fun _ => some ⟨"room.participant_joined", "room1", some "p"⟩)
        (some "sec|body") "body" = (200, ["participant_joined"]) := by
  decide
